import Mathlib

/-!
Verification of the feature classification, deduplication and test-case
synthesis pipeline of the playwright-service repository.

The definitions below are shallow embeddings of the JavaScript functions in
`src/index.js`, `src/index-simple.js` and the unnamed server variants:
string-processing is modelled on `List Char`, JS objects become Lean
structures (absent fields default to `""` / `[]`), and the JS `Set` used for
dedup keys becomes a `List String` queried by membership.
-/

/-! ## String helpers (JS semantics) -/

/-- Check that `pat` occurs at the start of `s` (character lists). -/
def listStartsWith : List Char → List Char → Bool
  | _, [] => true
  | [], _ :: _ => false
  | c :: cs, p :: ps => c == p && listStartsWith cs ps

/-- Check that `pat` occurs somewhere inside `s` (character lists). -/
def listContainsSub : List Char → List Char → Bool
  | [], pat => pat.isEmpty
  | c :: cs, pat => listStartsWith (c :: cs) pat || listContainsSub cs pat

/-- Embeds JavaScript `s.includes(pat)` (substring containment). -/
def jsIncludes (s pat : String) : Bool :=
  listContainsSub s.toList pat.toList

/-! ## Form classifier

Embedded from the `page.evaluate` extraction code generated by
`buildPlaywrightScript` in `src/index.js` (lines 509-532); the same
classifier text appears in both unnamed variants. -/

/-- One extracted `{name, type, placeholder}` input descriptor. -/
structure InputDetail where
  name : String
  type : String
  placeholder : String
deriving DecidableEq

/-- Embeds `inputDetails.map(i => (i.name + " " + i.placeholder).toLowerCase()).join(" ")`. -/
def buildFieldNames (inputs : List InputDetail) : String :=
  String.intercalate " " (inputs.map (fun i => (i.name ++ " " ++ i.placeholder).toLower))

/-- Embeds the form-classification `if`-chain of `buildPlaywrightScript`:
given the joined lowercased field text, returns `(formType, formPurpose)`. -/
def classifyForm (fieldNames : String) : String × String :=
  if jsIncludes fieldNames "email" && jsIncludes fieldNames "password" &&
      !(jsIncludes fieldNames "confirm") then
    ("login", "Login Form")
  else if jsIncludes fieldNames "search" || jsIncludes fieldNames "query" then
    ("search", "Search Form")
  else if jsIncludes fieldNames "card" || jsIncludes fieldNames "payment" then
    ("payment", "Payment Form")
  else if jsIncludes fieldNames "register" || jsIncludes fieldNames "signup" then
    ("registration", "Registration Form")
  else
    ("data-entry", "Data Entry Form")

/-- First-match evaluation of an ordered list of `(predicate, subtype)` rules,
defaulting to `data-entry`; used to state the spec's rule lists. -/
def firstMatch : List ((String → Bool) × String) → String → String
  | [], _ => "data-entry"
  | r :: rest, t => if r.1 t then r.2 else firstMatch rest t

/-- The form rules exactly as the claim words them: login, search,
payment (with `cvv`), registration (with the `email` and `confirm`
alternative), feedback, default data-entry. -/
def claimedFormRules : List ((String → Bool) × String) :=
  [(fun t => jsIncludes t "email" && jsIncludes t "password" && !(jsIncludes t "confirm"), "login"),
   (fun t => jsIncludes t "search" || jsIncludes t "query", "search"),
   (fun t => jsIncludes t "card" || jsIncludes t "payment" || jsIncludes t "cvv", "payment"),
   (fun t => jsIncludes t "register" || jsIncludes t "signup" ||
      (jsIncludes t "email" && jsIncludes t "confirm"), "registration"),
   (fun t => jsIncludes t "comment" || jsIncludes t "message" || jsIncludes t "feedback", "feedback")]

/-- Spec-worded classifier: ordered rules of the claim, first match wins. -/
def classifyFormSpecClaimed (t : String) : String :=
  firstMatch claimedFormRules t

/-- The form rules as the code actually has them: no `cvv` keyword, no
`email`-and-`confirm` alternative for registration, and no feedback rule. -/
def amendedFormRules : List ((String → Bool) × String) :=
  [(fun t => jsIncludes t "email" && jsIncludes t "password" && !(jsIncludes t "confirm"), "login"),
   (fun t => jsIncludes t "search" || jsIncludes t "query", "search"),
   (fun t => jsIncludes t "card" || jsIncludes t "payment", "payment"),
   (fun t => jsIncludes t "register" || jsIncludes t "signup", "registration")]

/-- Amended rule-list classifier matching the source. -/
def classifyFormSpecAmended (t : String) : String :=
  firstMatch amendedFormRules t

example : (classifyForm "email password").1 = "login" := by decide
example : (classifyForm "email password confirm").1 = "data-entry" := by decide
example : (classifyForm "cvv").1 = "data-entry" := by decide
example : classifyFormSpecClaimed "cvv" = "payment" := by decide
example : (classifyForm "q search").1 = "search" := by decide

/-! ## Features and test cases of `src/index.js`

`generateTestCasesFromFeatures` (lines 612-679) consumes the feature objects
returned by the browser script. JS objects are dynamic; missing fields are
modelled as empty defaults, so a feature of an unhandled type (say a table)
is representable and is skipped exactly as in the source. -/

/-- A raw feature object as produced by the extraction script. -/
structure Feature where
  type : String := ""
  formType : String := ""
  purpose : String := ""
  inputs : List InputDetail := []
  text : String := ""
  href : String := ""
  pageUrl : String := ""
deriving DecidableEq

/-- A synthesized test case record of `generateTestCasesFromFeatures`. -/
structure TestCase where
  title : String
  preconditions : String
  steps : List String
  expectedResults : String
  priority : String
  category : String
deriving DecidableEq

/-- Drop characters up to and including the first scheme separator `://`. -/
def afterSchemeSep : List Char → List Char
  | [] => []
  | ':' :: '/' :: '/' :: rest => rest
  | _ :: rest => afterSchemeSep rest

/-- Keep the suffix starting at the first slash, if any. -/
def fromFirstSlash : List Char → List Char
  | [] => []
  | '/' :: rest => '/' :: rest
  | _ :: rest => fromFirstSlash rest

/-- Models `new URL(u).pathname` for an absolute http(s) URL without query or
fragment: the suffix from the first `/` after `://`, or `/` when absent. -/
def urlPathname (u : String) : String :=
  let p := fromFirstSlash (afterSchemeSep u.toList)
  if p.isEmpty then "/" else String.mk p

/-- Dedup key of the form branch: `form-` purpose `-` pageUrl. -/
def formKey (f : Feature) : String :=
  "form-" ++ f.purpose ++ "-" ++ f.pageUrl

/-- Dedup key of the button branch: `button-` text `-` pageUrl. -/
def buttonKey (f : Feature) : String :=
  "button-" ++ f.text ++ "-" ++ f.pageUrl

/-- Dedup key of the link branch: `link-` text `-` pageUrl. -/
def linkKey (f : Feature) : String :=
  "link-" ++ f.text ++ "-" ++ f.pageUrl

/-- The test case pushed for a form feature. -/
def formTestCase (f : Feature) : TestCase :=
  { title := "Test " ++ f.purpose,
    preconditions := "User is authenticated and on " ++ urlPathname f.pageUrl,
    steps :=
      ["Navigate to " ++ f.pageUrl, "Locate the " ++ f.purpose.toLower] ++
      (f.inputs.take 5).map (fun i =>
        "Fill in \"" ++ (if i.name = "" then i.type else i.name) ++
          "\" field with valid test data") ++
      ["Submit the form"],
    expectedResults :=
      "Form should be submitted successfully and appropriate feedback should be displayed",
    priority := if f.formType = "login" ∨ f.formType = "registration" then "High" else "Medium",
    category :=
      if f.formType = "login" then "Authentication"
      else if f.formType = "registration" then "User Management"
      else if f.formType = "search" then "Search"
      else "Forms" }

/-- The test case pushed for a button feature. -/
def buttonTestCase (f : Feature) : TestCase :=
  { title := "Test \"" ++ f.text ++ "\" button functionality",
    preconditions := "User is authenticated and on " ++ urlPathname f.pageUrl,
    steps :=
      ["Navigate to " ++ f.pageUrl, "Locate the \"" ++ f.text ++ "\" button",
       "Click the button", "Verify the action completes"],
    expectedResults := "Button should trigger appropriate action and provide user feedback",
    priority := "Medium",
    category := "User Interaction" }

/-- The test case pushed for a link feature. -/
def linkTestCase (f : Feature) : TestCase :=
  { title := "Test \"" ++ f.text ++ "\" navigation",
    preconditions := "User is authenticated and on " ++ urlPathname f.pageUrl,
    steps :=
      ["Navigate to " ++ f.pageUrl, "Click on \"" ++ f.text ++ "\" link",
       "Verify navigation completes"],
    expectedResults := "Should navigate to the correct destination",
    priority := "Low",
    category := "Navigation" }

/-- Accumulated state of the `features.forEach` loop: the `tests` array and
the `seen` key set (a JS `Set`, modelled by membership in a list). -/
structure GenState where
  tests : List TestCase
  seen : List String
deriving DecidableEq

/-- One iteration of the `features.forEach` body of
`generateTestCasesFromFeatures`: forms are guarded only by the seen-key,
buttons also by `tests.length >= 30`, links by `tests.length >= 40`;
any other feature type falls through all branches unchanged. -/
def processFeature (s : GenState) (f : Feature) : GenState :=
  if f.type = "form" then
    if formKey f ∈ s.seen then s
    else { tests := s.tests ++ [formTestCase f], seen := formKey f :: s.seen }
  else if f.type = "button" then
    if buttonKey f ∈ s.seen ∨ 30 ≤ s.tests.length then s
    else { tests := s.tests ++ [buttonTestCase f], seen := buttonKey f :: s.seen }
  else if f.type = "link" then
    if linkKey f ∈ s.seen ∨ 40 ≤ s.tests.length then s
    else { tests := s.tests ++ [linkTestCase f], seen := linkKey f :: s.seen }
  else s

/-- Embeds `generateTestCasesFromFeatures` of `src/index.js`: fold the loop
body over the features, then `tests.slice(0, 50)`. -/
def generateTestCasesFromFeatures (features : List Feature) : List TestCase :=
  ((features.foldl processFeature { tests := [], seen := [] }).tests).take 50

/-- Sample button feature from the spec's end-to-end example. -/
def addToCartButton : Feature :=
  { type := "button", text := "Add to Cart", pageUrl := "https://shop.test/products" }

example :
    (generateTestCasesFromFeatures [addToCartButton]).map (fun t => t.category) =
      ["User Interaction"] := by decide

example : urlPathname "https://shop.test/products" = "/products" := by decide

/-! ## Fingerprinted features of the simplified variant

`extractFeaturesFromHTML` in `src/index-simple.js` and the first unnamed
variant attaches a `fingerprint` string to every feature;
`deduplicateFeatures` (index-simple.js lines 160-172) keeps the first
occurrence of each fingerprint. -/

/-- A feature record of the simplified pipeline. -/
structure SimpleFeature where
  type : String
  text : String
  selector : String
  url : String
  fingerprint : String
deriving DecidableEq

/-- Loop of `deduplicateFeatures` carrying the `seen` fingerprint set. -/
def dedupGo (seen : List String) : List SimpleFeature → List SimpleFeature
  | [] => []
  | f :: rest =>
    if f.fingerprint ∈ seen then dedupGo seen rest
    else f :: dedupGo (f.fingerprint :: seen) rest

/-- Embeds `deduplicateFeatures`: first occurrence per fingerprint wins. -/
def deduplicateFeatures (features : List SimpleFeature) : List SimpleFeature :=
  dedupGo [] features

/-- First element of the list carrying the given fingerprint, if any. -/
def firstWithFingerprint (p : String) : List SimpleFeature → Option SimpleFeature
  | [] => none
  | f :: rest => if f.fingerprint = p then some f else firstWithFingerprint p rest

/-! ## Test-case records of the simplified variant

`generateTestCases` of the first unnamed variant (lines 258-308) maps each
unique feature, with its position, to one structured record; the same
hardcoded `scope`/`affectedPages` appear in `src/index-simple.js`
lines 174-187. -/

/-- A structured step object `{step, action, selector, data}`. -/
structure SimpleStep where
  step : Nat
  action : String
  selector : String
  data : String
deriving DecidableEq

/-- A test record of the simplified `generateTestCases`. -/
structure TestCaseSimple where
  id : String
  category : String
  title : String
  description : String
  priority : String
  type : String
  selector : String
  action : String
  expected : String
  preconditions : String
  steps : List SimpleStep
  expectedResults : String
  scope : String
  affectedPages : List String
deriving DecidableEq

/-- Embeds the `switch (feature.type)` picking `(action, expected, category)`. -/
def featureActionExpected (t : String) : String × String × String :=
  if t = "link" ∨ t = "button" ∨ t = "clickable" then
    ("click", "Element is clickable and responds", "functional")
  else if t = "input" then ("fill", "Input accepts text", "functional")
  else if t = "select" then ("select", "Dropdown allows selection", "functional")
  else ("interact", "Element is interactive", "functional")

/-- Embeds `action.charAt(0).toUpperCase() + action.slice(1)`. -/
def capitalizeFirst (s : String) : String :=
  match s.toList with
  | [] => ""
  | c :: cs => String.mk (Char.toUpper c :: cs)

/-- The record built for the feature at position `index`. -/
def mkSimpleTest (index : Nat) (f : SimpleFeature) : TestCaseSimple :=
  let aec := featureActionExpected f.type
  { id := "test_" ++ toString (index + 1),
    category := aec.2.2,
    title := "Test " ++ f.type ++ ": " ++ f.text,
    description := "Verify that " ++ f.type ++ " \"" ++ f.text ++ "\" is functional",
    priority := "medium",
    type := f.type,
    selector := f.selector,
    action := aec.1,
    expected := aec.2.1,
    preconditions := "",
    steps := [{ step := 1, action := capitalizeFirst aec.1 ++ " on element",
                selector := f.selector, data := f.text }],
    expectedResults := aec.2.1,
    scope := "Page-specific",
    affectedPages := [f.url] }

/-- Indexed map underlying `features.map((feature, index) => ...)`. -/
def generateTestCasesGo (index : Nat) : List SimpleFeature → List TestCaseSimple
  | [] => []
  | f :: rest => mkSimpleTest index f :: generateTestCasesGo (index + 1) rest

/-- Embeds `generateTestCases` of the simplified variant. -/
def generateTestCases (features : List SimpleFeature) : List TestCaseSimple :=
  generateTestCasesGo 0 features

/-- Sample: the same button observed on page `/a`. -/
def btnPageA : SimpleFeature :=
  { type := "button", text := "Go", selector := "button:contains(\"Go\")",
    url := "https://site.test/a", fingerprint := "button:Go" }

/-- Sample: the same button (identical fingerprint) observed on page `/b`. -/
def btnPageB : SimpleFeature :=
  { type := "button", text := "Go", selector := "button:contains(\"Go\")",
    url := "https://site.test/b", fingerprint := "button:Go" }

example : deduplicateFeatures [btnPageA, btnPageB] = [btnPageA] := by decide
example :
    (generateTestCases (deduplicateFeatures [btnPageA, btnPageB])).map
      (fun t => t.affectedPages) = [["https://site.test/a"]] := by decide

/-! ## Login verification and request outcome of `src/index.js`

The generated browser script (lines 352-394) verifies a submitted login by
inspecting the page: first the texts of elements matching the error-styling
selectors, then the password-field / login-URL signal. The page snapshot at
verification time is modelled by the element texts in selector iteration
order, the password-field presence, and the current URL. -/

/-- Snapshot of the document when login verification runs. -/
structure PageState where
  errorTexts : List String
  passwordFieldPresent : Bool
  currentUrl : String
deriving DecidableEq

/-- Embeds the keyword test applied to each error element's lowercased text. -/
def errorKeywordMatch (t : String) : Bool :=
  let lt := t.toLower
  jsIncludes lt "incorrect" || jsIncludes lt "invalid" || jsIncludes lt "wrong" ||
  jsIncludes lt "failed" || jsIncludes lt "erreur" || jsIncludes lt "incorrecte" ||
  jsIncludes lt "invalide" || jsIncludes lt "échoué" || jsIncludes lt "echec"

/-- First error-element text containing a failure keyword, if any. -/
def firstErrorText : List String → Option String
  | [] => none
  | t :: rest => if errorKeywordMatch t then some t else firstErrorText rest

/-- Embeds the `page.evaluate` login verification: returns the JS object
`{failed, message}`. An error element with a failure keyword wins; otherwise
a still-present password field at a login/auth/signin URL reports failure. -/
def checkLoginFailed (ps : PageState) : Bool × String :=
  match firstErrorText ps.errorTexts with
  | some t => (true, if t.trim = "" then "Login failed" else t.trim)
  | none =>
    if ps.passwordFieldPresent &&
        (jsIncludes ps.currentUrl "login" || jsIncludes ps.currentUrl "auth" ||
          jsIncludes ps.currentUrl "signin") then
      (true, "Still on login page - credentials may be incorrect")
    else (false, "")

/-- Result object returned by the browser script to the `/analyze` handler. -/
structure ScriptResult where
  error : Option String
  features : List Feature
  loginSuccess : Bool
  pagesAnalyzed : Nat
deriving DecidableEq

/-- Embeds the script's control flow around a verified login attempt with a
login config present: on `Verified(failure)` it returns early with the login
error and no features; otherwise the per-page loop runs and its collected
features are returned (`pageFeatures` abstracts the external page loads). -/
def runAnalysisScript (ps : PageState) (pageFeatures : List Feature) (nUrls : Nat) :
    ScriptResult :=
  let v := checkLoginFailed ps
  if v.1 then
    { error := some ("Login failed: " ++ v.2 ++ ". Please verify your credentials."),
      features := [], loginSuccess := false, pagesAnalyzed := 0 }
  else
    { error := none, features := pageFeatures, loginSuccess := true, pagesAnalyzed := nUrls }

/-- JSON body (plus HTTP status) sent by the `/analyze` handler; absent JSON
keys are `none`. -/
structure AnalyzeResponse where
  status : Nat
  success : Bool
  message : Option String
  tests : Option (List TestCase)
  loginSuccess : Option Bool
  pagesAnalyzed : Option Nat
deriving DecidableEq

/-- Embeds the tail of the `/analyze` handler (src/index.js lines 139-173):
a script error gives a 500 failure body; an empty feature list gives a 200
body with `success: false` and an explanatory message and no `tests` key;
otherwise the synthesized tests are returned with `success: true`. -/
def analyzeRespond (result : ScriptResult) : AnalyzeResponse :=
  match result.error with
  | some e =>
    { status := 500, success := false, message := some e, tests := none,
      loginSuccess := none, pagesAnalyzed := none }
  | none =>
    if result.features.isEmpty then
      { status := 200, success := false,
        message := some "No functional elements detected after JavaScript execution.",
        tests := none, loginSuccess := none, pagesAnalyzed := none }
    else
      { status := 200, success := true, message := none,
        tests := some (generateTestCasesFromFeatures result.features),
        loginSuccess := some result.loginSuccess,
        pagesAnalyzed := some result.pagesAnalyzed }

example :
    (analyzeRespond (runAnalysisScript
      { errorTexts := [], passwordFieldPresent := true,
        currentUrl := "https://site.test/login" } [addToCartButton] 1)).success = false := by
  decide

/-! ## Lemmas about the reconciler -/

/-- The dedup loop output is a subsequence of its input. -/
theorem dedupGo_sublist (seen : List String) (xs : List SimpleFeature) :
    (dedupGo seen xs).Sublist xs := by
  induction xs generalizing seen with
  | nil => simp [dedupGo]
  | cons f rest ih =>
    simp only [dedupGo]
    split
    · exact (ih seen).cons f
    · exact (ih _).cons₂ f

/-- Every retained feature has a fingerprint outside `seen` and is the first
element of the input with that fingerprint. -/
theorem mem_dedupGo {seen : List String} {xs : List SimpleFeature} {f : SimpleFeature}
    (h : f ∈ dedupGo seen xs) :
    f.fingerprint ∉ seen ∧ firstWithFingerprint f.fingerprint xs = some f := by
  induction xs generalizing seen with
  | nil => simp [dedupGo] at h
  | cons g rest ih =>
    simp only [dedupGo] at h
    by_cases hg : g.fingerprint ∈ seen
    · rw [if_pos hg] at h
      obtain ⟨hns, hfirst⟩ := ih h
      refine ⟨hns, ?_⟩
      rw [firstWithFingerprint, if_neg (by intro he; rw [he] at hg; exact hns hg)]
      exact hfirst
    · rw [if_neg hg] at h
      rcases List.mem_cons.mp h with rfl | hmem
      · exact ⟨hg, by rw [firstWithFingerprint, if_pos rfl]⟩
      · obtain ⟨hns, hfirst⟩ := ih hmem
        refine ⟨fun hs => hns (List.mem_cons_of_mem _ hs), ?_⟩
        rw [firstWithFingerprint,
          if_neg (by intro he; exact hns (by rw [← he]; exact List.mem_cons_self _ _))]
        exact hfirst

/-- The retained fingerprints are pairwise distinct. -/
theorem dedupGo_fingerprints_nodup (seen : List String) (xs : List SimpleFeature) :
    ((dedupGo seen xs).map (fun f => f.fingerprint)).Nodup := by
  induction xs generalizing seen with
  | nil => simp [dedupGo]
  | cons g rest ih =>
    simp only [dedupGo]
    split
    · exact ih seen
    · simp only [List.map_cons, List.nodup_cons]
      refine ⟨?_, ih _⟩
      intro hmem
      obtain ⟨f, hf, hfp⟩ := List.mem_map.mp hmem
      exact (mem_dedupGo hf).1 (by rw [hfp]; exact List.mem_cons_self _ _)

/-- Every input fingerprint either was already seen or survives in the output. -/
theorem dedupGo_covers (seen : List String) (xs : List SimpleFeature) :
    ∀ f ∈ xs, f.fingerprint ∈ seen ∨
      ∃ g ∈ dedupGo seen xs, g.fingerprint = f.fingerprint := by
  induction xs generalizing seen with
  | nil => simp
  | cons g rest ih =>
    intro f hf
    simp only [dedupGo]
    rcases List.mem_cons.mp hf with rfl | hmem
    · by_cases hg : f.fingerprint ∈ seen
      · exact Or.inl hg
      · refine Or.inr ?_
        rw [if_neg hg]
        exact ⟨f, List.mem_cons_self _ _, rfl⟩
    · by_cases hg : g.fingerprint ∈ seen
      · rw [if_pos hg]; exact ih seen f hmem
      · rw [if_neg hg]
        rcases ih (g.fingerprint :: seen) f hmem with hin | ⟨g', hg', he⟩
        · rcases List.mem_cons.mp hin with he | hin
          · exact Or.inr ⟨g, List.mem_cons_self _ _, he.symm⟩
          · exact Or.inl hin
        · exact Or.inr ⟨g', List.mem_cons_of_mem _ hg', he⟩

/-- A first occurrence whose fingerprint is unseen is retained. -/
theorem first_mem_dedupGo {xs : List SimpleFeature} {seen : List String} {f : SimpleFeature}
    (hfirst : firstWithFingerprint f.fingerprint xs = some f)
    (hns : f.fingerprint ∉ seen) : f ∈ dedupGo seen xs := by
  induction xs generalizing seen with
  | nil => simp [firstWithFingerprint] at hfirst
  | cons g rest ih =>
    simp only [firstWithFingerprint] at hfirst
    simp only [dedupGo]
    by_cases hgf : g.fingerprint = f.fingerprint
    · rw [if_pos hgf] at hfirst
      have hgeq : g = f := by injection hfirst
      subst hgeq
      rw [if_neg hns]
      exact List.mem_cons_self _ _
    · rw [if_neg hgf] at hfirst
      by_cases hg : g.fingerprint ∈ seen
      · rw [if_pos hg]; exact ih hfirst hns
      · rw [if_neg hg]
        refine List.mem_cons_of_mem _ (ih hfirst ?_)
        intro h
        rcases List.mem_cons.mp h with he | hin
        · exact hgf he.symm
        · exact hns hin

/-- The loop is the identity on inputs with fresh, pairwise distinct
fingerprints. -/
theorem dedupGo_of_fresh {xs : List SimpleFeature} {seen : List String}
    (hfresh : ∀ f ∈ xs, f.fingerprint ∉ seen)
    (hnd : (xs.map (fun f => f.fingerprint)).Nodup) : dedupGo seen xs = xs := by
  induction xs generalizing seen with
  | nil => simp [dedupGo]
  | cons g rest ih =>
    simp only [dedupGo]
    rw [if_neg (hfresh g (List.mem_cons_self g rest))]
    congr 1
    simp only [List.map_cons, List.nodup_cons] at hnd
    refine ih ?_ hnd.2
    intro f hf hmem
    rcases List.mem_cons.mp hmem with he | hin
    · exact hnd.1 (by rw [← he]; exact List.mem_map_of_mem _ hf)
    · exact hfresh f (List.mem_cons_of_mem _ hf) hin

/-! ## Lemmas about the synthesizer of `src/index.js` -/

/-- A property holding for the incoming tests and for all three templates is
preserved by one loop iteration. -/
theorem processFeature_preserves {P : TestCase → Prop} {s : GenState} {f : Feature}
    (hP : ∀ t ∈ s.tests, P t) (hform : P (formTestCase f))
    (hbutton : P (buttonTestCase f)) (hlink : P (linkTestCase f)) :
    ∀ t ∈ (processFeature s f).tests, P t := by
  intro t ht
  unfold processFeature at ht
  split_ifs at ht <;>
    first
      | exact hP t ht
      | · simp only [List.mem_append, List.mem_singleton] at ht
          rcases ht with ht | rfl
          · exact hP t ht
          · assumption

/-- Lifting of `processFeature_preserves` over the whole feature loop. -/
theorem foldl_processFeature_preserves (P : TestCase → Prop)
    (hform : ∀ f, P (formTestCase f)) (hbutton : ∀ f, P (buttonTestCase f))
    (hlink : ∀ f, P (linkTestCase f)) :
    ∀ (fs : List Feature) (s : GenState), (∀ t ∈ s.tests, P t) →
      ∀ t ∈ (fs.foldl processFeature s).tests, P t := by
  intro fs
  induction fs with
  | nil => intro s hs; simpa using hs
  | cons f rest ih =>
    intro s hs
    simp only [List.foldl_cons]
    exact ih _ (processFeature_preserves hs (hform f) (hbutton f) (hlink f))

/-- Membership in the indexed map of the simplified `generateTestCases`. -/
theorem mem_generateTestCasesGo :
    ∀ {fs : List SimpleFeature} {i : Nat} {t : TestCaseSimple},
      t ∈ generateTestCasesGo i fs → ∃ f ∈ fs, ∃ j, t = mkSimpleTest j f := by
  intro fs
  induction fs with
  | nil => intro i t h; simp [generateTestCasesGo] at h
  | cons f rest ih =>
    intro i t h
    simp only [generateTestCasesGo] at h
    rcases List.mem_cons.mp h with rfl | hmem
    · exact ⟨f, List.mem_cons_self _ _, i, rfl⟩
    · obtain ⟨g, hg, j, he⟩ := ih hmem
      exact ⟨g, List.mem_cons_of_mem _ hg, j, he⟩

/-! ## Claim theorems -/

/-- Claim C1, counterexample: on field text `cvv` the code classifies the form
as `data-entry`, while the claim's rule list (payment on `cvv`) says
`payment`, so the claimed rule set is not the one the code evaluates. -/
theorem classifyForm_cvv_counterexample :
    (classifyForm "cvv").1 = "data-entry" ∧ classifyFormSpecClaimed "cvv" = "payment" ∧
      (((classifyForm "cvv").1 == classifyFormSpecClaimed "cvv") = false) := by
  decide

/-- Claim C1, amended: the classifier evaluates ordered first-match rules over
the lowercased field text, but the payment rule has no `cvv` keyword, the
registration rule has no `email`-and-`confirm` alternative, and there is no
feedback rule; the two concrete examples of the claim do hold. -/
theorem classifyForm_amended_rules :
    (∀ t : String, (classifyForm t).1 = classifyFormSpecAmended t) ∧
      (classifyForm "email password").1 = "login" ∧
      (classifyForm "email password confirm").1 = "data-entry" := by
  refine ⟨fun t => ?_, by decide, by decide⟩
  simp only [classifyForm, classifyFormSpecAmended, amendedFormRules, firstMatch]
  split_ifs <;> rfl

/-- Sample data-entry form feature for the CRUD trigger set. -/
def crudForm : Feature :=
  { type := "form", formType := "data-entry", purpose := "Data Entry Form",
    inputs := [{ name := "name", type := "text", placeholder := "" }],
    pageUrl := "https://app.test/items" }

/-- Sample table feature for the CRUD trigger set. -/
def crudTable : Feature :=
  { type := "table", text := "Items", pageUrl := "https://app.test/items" }

/-- Sample create-classified button for the CRUD trigger set. -/
def crudAddButton : Feature :=
  { type := "button", text := "Add Item", pageUrl := "https://app.test/items" }

/-- Claim C2, counterexample: a feature set with a data-entry form, a table
and a create-keyword button yields no Critical-priority test at all (and only
the two atomic tests; the table contributes nothing), so no composite CRUD
workflow test is synthesized. -/
theorem crud_composite_counterexample :
    ((generateTestCasesFromFeatures [crudForm, crudTable, crudAddButton]).filter
        (fun t => t.priority == "Critical")).length = 0 ∧
      (generateTestCasesFromFeatures [crudForm, crudTable, crudAddButton]).length = 2 := by
  decide

/-- Claim C2, amended: the synthesizer never emits a composite CRUD workflow
test: table features produce no test case, and every emitted test has
priority High, Medium or Low — never Critical — whatever the feature set. -/
theorem no_crud_composite_test :
    (∀ (s : GenState) (f : Feature), f.type = "table" → processFeature s f = s) ∧
      (∀ (features : List Feature), ∀ t ∈ generateTestCasesFromFeatures features,
        t.priority = "High" ∨ t.priority = "Medium" ∨ t.priority = "Low") := by
  constructor
  · intro s f htype
    simp only [processFeature, htype]
    rfl
  · intro fs t ht
    have ht' : t ∈ (fs.foldl processFeature { tests := [], seen := [] }).tests :=
      List.mem_of_mem_take ht
    refine foldl_processFeature_preserves
      (fun t => t.priority = "High" ∨ t.priority = "Medium" ∨ t.priority = "Low")
      ?_ ?_ ?_ fs _ (by simp) t ht'
    · intro f
      by_cases h : f.formType = "login" ∨ f.formType = "registration"
      · exact Or.inl (by simp [formTestCase, h])
      · exact Or.inr (Or.inl (by simp [formTestCase, h]))
    · intro f; exact Or.inr (Or.inl rfl)
    · intro f; exact Or.inr (Or.inr rfl)

/-- Claim C2, witness: the amended theorem applied to the table feature and to
the one test generated from the sample button. -/
theorem no_crud_composite_test_witness :
    processFeature { tests := [], seen := [] } crudTable = { tests := [], seen := [] } ∧
      ((buttonTestCase crudAddButton).priority = "High" ∨
        (buttonTestCase crudAddButton).priority = "Medium" ∨
        (buttonTestCase crudAddButton).priority = "Low") :=
  ⟨no_crud_composite_test.1 _ crudTable rfl,
   no_crud_composite_test.2 [crudAddButton] (buttonTestCase crudAddButton) (by decide)⟩

/-- Claim C3, counterexample: the button reading `Add to Cart` yields a test
case whose category is the fixed string `User Interaction`, not `create`; no
test with category `create` exists at all. -/
theorem addToCart_category_counterexample :
    (generateTestCasesFromFeatures [addToCartButton]).map (fun t => t.category) =
        ["User Interaction"] ∧
      (generateTestCasesFromFeatures [addToCartButton]).filter
        (fun t => t.category == "create") = [] := by
  decide

/-- Claim C3, amended: there is no keyword inference over the button's display
text: whatever the text and page, the synthesized button test case has the
fixed category `User Interaction` and priority `Medium`. -/
theorem button_category_fixed :
    ∀ (text url : String),
      (generateTestCasesFromFeatures [{ type := "button", text := text, pageUrl := url }]).map
          (fun t => t.category) = ["User Interaction"] ∧
        (generateTestCasesFromFeatures [{ type := "button", text := text, pageUrl := url }]).map
          (fun t => t.priority) = ["Medium"] := by
  intro text url
  exact ⟨rfl, rfl⟩

/-- Claim C9: the 30-cap on button tests and the 40-cap on link tests compare
against the length of the whole `tests` array so far, forms are never capped
in the loop, and the final slice bounds the output at 50. -/
theorem synthesis_caps_are_total :
    (∀ (s : GenState) (f : Feature), f.type = "button" → 30 ≤ s.tests.length →
        (processFeature s f).tests = s.tests) ∧
      (∀ (s : GenState) (f : Feature), f.type = "link" → 40 ≤ s.tests.length →
        (processFeature s f).tests = s.tests) ∧
      (∀ (s : GenState) (f : Feature), f.type = "form" → formKey f ∉ s.seen →
        (processFeature s f).tests = s.tests ++ [formTestCase f]) ∧
      (∀ features : List Feature, (generateTestCasesFromFeatures features).length ≤ 50) := by
  refine ⟨?_, ?_, ?_, ?_⟩
  · intro s f htype h30
    simp [processFeature, htype, h30]
  · intro s f htype h40
    simp [processFeature, htype, h40]
  · intro s f htype hseen
    simp [processFeature, htype, hseen]
  · intro fs
    unfold generateTestCasesFromFeatures
    rw [List.length_take]
    exact min_le_left _ _

/-- A sample test case used to build loop states of a given size. -/
def dummyTest : TestCase :=
  { title := "t", preconditions := "p", steps := [], expectedResults := "e",
    priority := "Medium", category := "c" }

/-- Loop state that already holds thirty tests. -/
def thirtyTestsState : GenState :=
  { tests := List.replicate 30 dummyTest, seen := [] }

/-- Loop state that already holds forty tests. -/
def fortyTestsState : GenState :=
  { tests := List.replicate 40 dummyTest, seen := [] }

/-- Sample link feature. -/
def sampleHomeLink : Feature :=
  { type := "link", text := "Home", href := "/", pageUrl := "https://shop.test/products" }

/-- Claim C9, witness: at thirty existing tests a button adds nothing, at
forty a link adds nothing, a fresh form still appends, and the empty input
respects the overall bound. -/
theorem synthesis_caps_are_total_witness :
    (processFeature thirtyTestsState addToCartButton).tests = thirtyTestsState.tests ∧
      (processFeature fortyTestsState sampleHomeLink).tests = fortyTestsState.tests ∧
      (processFeature thirtyTestsState crudForm).tests =
        thirtyTestsState.tests ++ [formTestCase crudForm] ∧
      (generateTestCasesFromFeatures []).length ≤ 50 :=
  ⟨synthesis_caps_are_total.1 thirtyTestsState addToCartButton rfl (by decide),
   synthesis_caps_are_total.2.1 fortyTestsState sampleHomeLink rfl (by decide),
   synthesis_caps_are_total.2.2.1 thirtyTestsState crudForm rfl (by decide),
   synthesis_caps_are_total.2.2.2 []⟩

/-- Claim C4, counterexample: a button observed on two distinct pages still
yields a test whose scope is `Page-specific` (not Global) and whose
`affectedPages` lists only the first page — the second origin is absent. -/
theorem multi_page_scope_counterexample :
    (generateTestCases (deduplicateFeatures [btnPageA, btnPageB])).map (fun t => t.scope) =
        ["Page-specific"] ∧
      (generateTestCases (deduplicateFeatures [btnPageA, btnPageB])).map
        (fun t => t.affectedPages) = [["https://site.test/a"]] ∧
      btnPageB.url = "https://site.test/b" ∧
      ((btnPageA.url == btnPageB.url) = false) := by
  decide

/-- Claim C4, amended: there is no `isGlobal` recomputation at all: every
synthesized test case has the hardcoded scope `Page-specific`, and its
`affectedPages` is the one-element list holding the url of its source
feature, regardless of how many pages the fingerprint appeared on. -/
theorem testcases_scope_hardcoded :
    ∀ (features : List SimpleFeature), ∀ t ∈ generateTestCases features,
      t.scope = "Page-specific" ∧ ∃ f ∈ features, t.affectedPages = [f.url] := by
  intro fs t ht
  obtain ⟨f, hf, j, rfl⟩ := mem_generateTestCasesGo ht
  exact ⟨rfl, f, hf, rfl⟩

/-- Claim C4, witness: the amended theorem applied to the test generated from
the sample button feature. -/
theorem testcases_scope_hardcoded_witness :
    (mkSimpleTest 0 btnPageA).scope = "Page-specific" ∧
      ∃ f ∈ [btnPageA], (mkSimpleTest 0 btnPageA).affectedPages = [f.url] :=
  testcases_scope_hardcoded [btnPageA] (mkSimpleTest 0 btnPageA) (by decide)

/-- Claim C5, counterexample: when the same fingerprint arrives from two
origin pages, the reconciler keeps only the first record unchanged; the
second page's origin is discarded, not appended anywhere, so no entry lists
the distinct origin pages. -/
theorem second_origin_discarded_counterexample :
    deduplicateFeatures [btnPageA, btnPageB] = [btnPageA] ∧
      (deduplicateFeatures [btnPageA, btnPageB]).map (fun f => f.url) =
        ["https://site.test/a"] ∧
      ((btnPageA.url == btnPageB.url) = false) := by
  decide

/-- Claim C5, amended: an unseen fingerprint inserts the feature as-is (with
its single origin url); a seen fingerprint drops the feature entirely, its
origin page unrecorded. The output is exactly the set of first occurrences
per fingerprint, and it is nonempty whenever the input is. -/
theorem dedup_keeps_exactly_first_occurrences :
    ∀ features : List SimpleFeature,
      (∀ f : SimpleFeature,
        f ∈ deduplicateFeatures features ↔
          firstWithFingerprint f.fingerprint features = some f) ∧
      (features ≠ [] → deduplicateFeatures features ≠ []) := by
  intro xs
  constructor
  · intro f
    constructor
    · intro h
      exact (mem_dedupGo h).2
    · intro h
      exact first_mem_dedupGo h (List.not_mem_nil _)
  · intro hne
    cases xs with
    | nil => exact absurd rfl hne
    | cons g rest =>
      simp only [deduplicateFeatures, dedupGo]
      rw [if_neg (List.not_mem_nil _)]
      exact List.cons_ne_nil _ _

/-- Claim C5, witness: the amended theorem at the two-page sample input. -/
theorem dedup_keeps_exactly_first_occurrences_witness :
    (btnPageA ∈ deduplicateFeatures [btnPageA, btnPageB] ↔
        firstWithFingerprint btnPageA.fingerprint [btnPageA, btnPageB] = some btnPageA) ∧
      deduplicateFeatures [btnPageA, btnPageB] ≠ [] :=
  ⟨(dedup_keeps_exactly_first_occurrences [btnPageA, btnPageB]).1 btnPageA,
   (dedup_keeps_exactly_first_occurrences [btnPageA, btnPageB]).2 (by decide)⟩

/-- Claim C8: running the reconciler's deduplication on its own output
changes nothing, so in particular the size is unchanged. -/
theorem dedup_idempotent :
    ∀ features : List SimpleFeature,
      (deduplicateFeatures (deduplicateFeatures features)).length =
        (deduplicateFeatures features).length := by
  intro xs
  have h : deduplicateFeatures (deduplicateFeatures xs) = deduplicateFeatures xs :=
    dedupGo_of_fresh (fun f _ => List.not_mem_nil _) (dedupGo_fingerprints_nodup [] xs)
  rw [h]

/-- Claim C10: deduplication returns an order-preserving subsequence of its
input made of exactly the first occurrence of each distinct fingerprint, each
retained record unchanged; every input fingerprint is represented. -/
theorem dedup_first_occurrence_subsequence :
    ∀ features : List SimpleFeature,
      (deduplicateFeatures features).Sublist features ∧
      ((deduplicateFeatures features).map (fun f => f.fingerprint)).Nodup ∧
      (∀ f ∈ features, ∃ g ∈ deduplicateFeatures features,
        g.fingerprint = f.fingerprint) ∧
      (∀ g ∈ deduplicateFeatures features,
        firstWithFingerprint g.fingerprint features = some g) := by
  intro xs
  refine ⟨dedupGo_sublist [] xs, dedupGo_fingerprints_nodup [] xs, ?_, ?_⟩
  · intro f hf
    rcases dedupGo_covers [] xs f hf with h | h
    · exact absurd h (List.not_mem_nil _)
    · exact h
  · intro g hg
    exact (mem_dedupGo hg).2

/-- Claim C10, witness: at the two-page sample, the later duplicate is
represented by the retained first record, which is the first occurrence of
its fingerprint. -/
theorem dedup_first_occurrence_subsequence_witness :
    (∃ g ∈ deduplicateFeatures [btnPageA, btnPageB],
        g.fingerprint = btnPageB.fingerprint) ∧
      firstWithFingerprint btnPageA.fingerprint [btnPageA, btnPageB] = some btnPageA :=
  ⟨(dedup_first_occurrence_subsequence [btnPageA, btnPageB]).2.2.1 btnPageB (by decide),
   (dedup_first_occurrence_subsequence [btnPageA, btnPageB]).2.2.2 btnPageA (by decide)⟩

/-- Claim C6: a submitted login that leaves a password field present at a URL
containing `login`, `auth` or `signin` makes the verification report failure;
the script then returns early with no features and the request responds with
`success: false` and no tests. -/
theorem login_failure_short_circuit :
    ∀ (ps : PageState) (pageFeatures : List Feature) (nUrls : Nat),
      ps.passwordFieldPresent = true →
      (jsIncludes ps.currentUrl "login" || jsIncludes ps.currentUrl "auth" ||
        jsIncludes ps.currentUrl "signin") = true →
      (checkLoginFailed ps).1 = true ∧
      (runAnalysisScript ps pageFeatures nUrls).features = [] ∧
      (analyzeRespond (runAnalysisScript ps pageFeatures nUrls)).success = false ∧
      (analyzeRespond (runAnalysisScript ps pageFeatures nUrls)).tests = none := by
  intro ps feats n hpw hurl
  have hfail : (checkLoginFailed ps).1 = true := by
    rcases hfe : firstErrorText ps.errorTexts with _ | t
    · simp [checkLoginFailed, hfe, hpw, hurl]
    · simp [checkLoginFailed, hfe]
  have hrun : runAnalysisScript ps feats n =
      { error := some ("Login failed: " ++ (checkLoginFailed ps).2 ++
          ". Please verify your credentials."),
        features := [], loginSuccess := false, pagesAnalyzed := 0 } := by
    simp [runAnalysisScript, hfail]
  refine ⟨hfail, ?_, ?_, ?_⟩ <;> rw [hrun] <;> rfl

/-- Snapshot of a failed login: no styled error element, but the password
field is still there and the URL is still the login route. -/
def stillOnLoginPage : PageState :=
  { errorTexts := [], passwordFieldPresent := true,
    currentUrl := "https://site.test/login" }

/-- Claim C6, witness: the short-circuit at the concrete failed-login page. -/
theorem login_failure_short_circuit_witness :
    (checkLoginFailed stillOnLoginPage).1 = true ∧
      (runAnalysisScript stillOnLoginPage [addToCartButton] 1).features = [] ∧
      (analyzeRespond (runAnalysisScript stillOnLoginPage [addToCartButton] 1)).success =
        false ∧
      (analyzeRespond (runAnalysisScript stillOnLoginPage [addToCartButton] 1)).tests =
        none :=
  login_failure_short_circuit stillOnLoginPage [addToCartButton] 1 rfl (by decide)

/-- Claim C7: a script result with no error but zero features yields an HTTP
200 response whose body is `success: false` with the explanatory message and
no `tests` key — nothing crashes and no test cases are returned. -/
theorem empty_features_not_a_crash :
    ∀ result : ScriptResult, result.error = none → result.features = [] →
      analyzeRespond result =
        { status := 200, success := false,
          message := some "No functional elements detected after JavaScript execution.",
          tests := none, loginSuccess := none, pagesAnalyzed := none } := by
  intro r he hf
  simp [analyzeRespond, he, hf]

/-- A script result that found nothing on two pages. -/
def emptyScriptResult : ScriptResult :=
  { error := none, features := [], loginSuccess := false, pagesAnalyzed := 2 }

/-- Claim C7, witness: the empty-result response at a concrete result. -/
theorem empty_features_not_a_crash_witness :
    analyzeRespond emptyScriptResult =
      { status := 200, success := false,
        message := some "No functional elements detected after JavaScript execution.",
        tests := none, loginSuccess := none, pagesAnalyzed := none } :=
  empty_features_not_a_crash emptyScriptResult rfl rfl
